import Mathlib

/-!
Shallow embedding of `im2scene/giraffe/training.py` (class `Trainer`).

Tensors are modelled over the rationals: an image is a list of channels,
each channel a flattened list of pixel values; a batch is a list of images.
The external collaborators (generator, discriminator, autodifferentiation,
optimizer stepping, FID statistics, PSNR/SSIM) are opaque function fields
of an `Env` record; the Trainer's own control flow — what is computed from
what, in which order, under which gradient context, and which files are
written — is embedded concretely and additionally recorded as a trace of
events, mirroring the straight-line Python code.
-/

namespace SwapNeRF

/-- A model parameter vector (flattened). -/
abbrev Param := List ℚ

/-- One image: channels, each a flattened list of pixel values. -/
abbrev Image := List (List ℚ)

/-- A batch of images (the batch dimension is the outer list). -/
abbrev Batch := List Image

/-- Discriminator scores for a batch. -/
abbrev Scores := List ℚ

/-- Activation statistics: mean vector and covariance matrix. -/
abbrev Stats := List ℚ × List (List ℚ)

/-- The three image batches returned by the generator forward pass
(`x_fake, x_swap, x_rand` in the source, commented `pred, swap, rand`). -/
structure GenOut where
  pred : Batch
  swap : Batch
  rand : Batch

/-- The `data` dictionary handed to a training step; `data.get('image')`
is modelled by the `image` field, and `.to(self.device)` is the identity
(device placement has no observable effect in this model). -/
structure Data where
  image : Batch

/-- The modules whose state the Trainer mutates. -/
inductive Module where
  | gen
  | disc
  | ema
deriving DecidableEq

/-- Lines of the `uv.txt` log written by `record_uvs`: either a labeled
entry `<it>th <label>-uv : <pairs>` or the blank separator line. -/
inductive UVLine where
  | entry (it : ℕ) (label : String) (pairs : List (ℚ × ℚ))
  | blank
deriving DecidableEq

/-- Output file names produced by `visualize`.  `trainVis it` renders as
`visualization_%010d.png % it`; `valVis it p s` renders as
`visualization_<it>_evaluation_P<p>_S<s>.png` with `p`, `s` the
PSNR/SSIM already rounded to 2 decimal places. -/
inductive FileName where
  | trainVis (it : ℕ)
  | valVis (it : ℕ) (p : ℚ) (s : ℚ)
deriving DecidableEq

/-- Events recorded by the embedding, in source order: gradient toggling,
mode switches, optimizer interactions, forward passes (with the parameter
vector used and whether the call is inside a no-gradient context),
backward passes (with the scalar loss backpropagated), the EMA update,
FID statistic computation, and file writes. -/
inductive Ev where
  | toggle (m : Module) (b : Bool)
  | trainMode (m : Module)
  | evalMode (m : Module)
  | zeroGrad (m : Module)
  | genFwd (params : Param) (noGrad : Bool)
  | genValFwd (params : Param) (noGrad : Bool)
  | genSampleFwd (params : Param) (noGrad : Bool)
  | discFwd (input : Batch)
  | backward (loss : ℚ)
  | optStep (m : Module)
  | emaUpd (beta : ℚ)
  | stats (x : Batch)
  | fid (eps : ℚ)
  | save (dir : String) (name : FileName)
  | uvAppend (dir : String) (lines : Option (List UVLine))
deriving DecidableEq

/-- Mutable Trainer state threaded through the steps: the live generator
parameters, the discriminator parameters, and the optional EMA
(`generator_test`) parameters. -/
structure TState where
  genParams : Param
  discParams : Param
  emaParams : Option Param
deriving DecidableEq

/-- The external collaborators, opaque to this file's control flow.
`gen` is the generator forward on a real batch; `genVal` the forward with
`mode = val, need_uv = True`, additionally returning the three UV arrays
(pred, swap, rand), each already flattened; `genSample` the unconditional
`gen()` sampling call, indexed by the iteration to model fresh random
draws.  `stepG p loss` (resp. `stepD`) is the parameter vector after
`loss.backward()` followed by the generator (resp. discriminator)
optimizer step — autodifferentiation is delegated, exactly as in the
source.  `compute_bce` and `compute_grad2` are modelled from the spec:
they live in `im2scene/training.py`, which is not part of the sources;
per the spec, `compute_bce scores label` is the binary cross-entropy of
the scores against the constant label and `compute_grad2 scores input`
returns the per-sample squared gradient norms of the scores with respect
to the input. -/
structure Env where
  gen : Param → Batch → GenOut
  genVal : Param → Batch → GenOut × (List ℚ × List ℚ × List ℚ)
  genSample : Param → ℕ → Batch
  disc : Param → Batch → Scores
  compute_bce : Scores → ℕ → ℚ
  compute_grad2 : Scores → Batch → List ℚ
  stepG : Param → ℚ → Param
  stepD : Param → ℚ → Param
  calculate_activation_statistics : Batch → Stats
  calculate_frechet_distance : Stats → Stats → ℚ → ℚ
  psnr : Image → Image → ℚ
  ssim : Image → Image → ℚ
  make_grid : Batch → ℕ → Image

/-- Trainer configuration, fixed at construction. -/
structure Trainer where
  recon_weight : ℚ
  n_eval_iterations : ℕ
  fid_m : List ℚ
  fid_s : List (List ℚ)
  vis_dir : String
  val_vis_dir : String

/-- Mean of a list of rationals (Python `mean()`; `0` on the empty list
by the rational convention `x / 0 = 0`). -/
def meanQ (l : List ℚ) : ℚ := l.sum / l.length

/-- Flatten one image to its list of values. -/
def flatI (img : Image) : List ℚ := img.flatten

/-- Flatten a batch to its list of values. -/
def flatB (b : Batch) : List ℚ := (b.map flatI).flatten

/-- `torch.nn.MSELoss()` with the default mean reduction: mean of the
elementwise squared differences. -/
def mseLoss (a b : Batch) : ℚ :=
  meanQ (List.zipWith (fun x y => (x - y) ^ 2) (flatB a) (flatB b))

/-- `clamp_(0., 1.)` on one value. -/
def clampQ (q : ℚ) : ℚ := max 0 (min 1 q)

/-- `clamp_(0., 1.)` on an image. -/
def clampI (img : Image) : Image := img.map (fun ch => ch.map clampQ)

/-- `clamp_(0., 1.)` on a batch. -/
def clampB (b : Batch) : Batch := b.map clampI

/-- Modelled from the spec: `update_average(target, source, beta)` from
`im2scene/training.py` is not among the sources; the spec states that
each EMA parameter becomes `beta * EMA + (1 - beta) * live`, applied
per-parameter with no gradient tracking. -/
def update_average (ema live : Param) (beta : ℚ) : Param :=
  List.zipWith (fun e l => beta * e + (1 - beta) * l) ema live

/-- `Trainer.train_step_generator`: freezes the discriminator, unfreezes
the generator, zeroes the generator optimizer, runs the generator on the
real batch, scores reconstruction and random sample, backpropagates
`compute_bce(d_rand, 1) + recon_weight * MSE(x_fake, x_real)`, steps the
generator optimizer, then updates the EMA copy when present.  Returns
the three scalars `(gen_loss, loss_recon, gloss_rand)`, the new state,
and the event trace.  The `multi_gpu` branch differs from the plain one
only in fetching latents explicitly; both reduce to the same forward
call here. -/
def train_step_generator (env : Env) (t : Trainer) (s : TState) (data : Data)
    (_it : Option ℕ) : (ℚ × ℚ × ℚ) × TState × List Ev :=
  let x_real := data.image
  let o := env.gen s.genParams x_real
  let x_fake := o.pred
  let x_rand := o.rand
  let _d_fake := env.disc s.discParams x_fake
  let d_rand := env.disc s.discParams x_rand
  let gloss_rand := env.compute_bce d_rand 1
  let loss_recon := mseLoss x_fake x_real * t.recon_weight
  let gen_loss := gloss_rand + loss_recon
  let genParams1 := env.stepG s.genParams gen_loss
  let ema1 := s.emaParams.map (fun p => update_average p genParams1 (999 / 1000))
  ((gen_loss, loss_recon, gloss_rand),
   { s with genParams := genParams1, emaParams := ema1 },
   [Ev.toggle Module.gen true, Ev.toggle Module.disc false,
    Ev.trainMode Module.gen, Ev.trainMode Module.disc,
    Ev.zeroGrad Module.gen,
    Ev.genFwd s.genParams false,
    Ev.discFwd x_fake, Ev.discFwd x_rand,
    Ev.backward gen_loss, Ev.optStep Module.gen] ++
   (match s.emaParams with
    | some _ => [Ev.emaUpd (999 / 1000)]
    | none => []))

/-- `Trainer.train_step_discriminator`: freezes the generator, unfreezes
the discriminator, zeroes the discriminator optimizer, scores the real
batch, adds the R1 penalty `10 * mean(compute_grad2(d_real, x_real))`,
synthesizes the random sample inside `torch.no_grad()` (taking the last
element of the generator's output tuple), scores it against label 0,
backpropagates the accumulated total, and steps the discriminator
optimizer.  Returns `(d_loss_real + d_loss_rand, reg, d_loss_real,
d_loss_rand)`, the new state, and the trace. -/
def train_step_discriminator (env : Env) (_t : Trainer) (s : TState) (data : Data)
    (_it : Option ℕ) : (ℚ × ℚ × ℚ × ℚ) × TState × List Ev :=
  let x_real := data.image
  let d_real := env.disc s.discParams x_real
  let d_loss_real := env.compute_bce d_real 1
  let reg := 10 * meanQ (env.compute_grad2 d_real x_real)
  let x_rand := (env.gen s.genParams x_real).rand
  let d_rand := env.disc s.discParams x_rand
  let d_loss_rand := env.compute_bce d_rand 0
  let loss_d_full := d_loss_real + reg + d_loss_rand
  let discParams1 := env.stepD s.discParams loss_d_full
  let d_loss := d_loss_real + d_loss_rand
  ((d_loss, reg, d_loss_real, d_loss_rand),
   { s with discParams := discParams1 },
   [Ev.toggle Module.gen false, Ev.toggle Module.disc true,
    Ev.trainMode Module.gen, Ev.trainMode Module.disc,
    Ev.zeroGrad Module.disc,
    Ev.discFwd x_real,
    Ev.genFwd s.genParams true,
    Ev.discFwd x_rand,
    Ev.backward loss_d_full, Ev.optStep Module.disc])

/-- `Trainer.train_step`: a generator update followed by a discriminator
update on the same batch, returning the flat dictionary of seven scalar
metrics in source order. -/
def train_step (env : Env) (t : Trainer) (s : TState) (data : Data)
    (it : Option ℕ) : List (String × ℚ) × TState × List Ev :=
  let g := train_step_generator env t s data it
  let d := train_step_discriminator env t g.2.1 data it
  ([("generator_total", g.1.1),
    ("generator_random", g.1.2.2),
    ("recon", g.1.2.1),
    ("discriminator", d.1.1),
    ("regularizer", d.1.2.1),
    ("real_d", d.1.2.2.1),
    ("rand_d", d.1.2.2.2)],
   d.2.1, g.2.2 ++ d.2.2)

/-- The generator used for evaluation and visualization sampling in
`eval_step`: `self.model.generator_test` when it exists, otherwise
`self.model.generator`. -/
def emaOrLive (s : TState) : Param :=
  match s.emaParams with
  | some p => p
  | none => s.genParams

/-- `Trainer.eval_step`: selects the EMA generator when present, runs
`n_eval_iterations` unconditional sampling calls under `torch.no_grad()`,
keeps the first 3 channels of each batch, concatenates along the batch
dimension, clamps to the unit interval, and computes the FID score with
`eps = 1e-4` against the reference statistics.  Returns the single-entry
dictionary and the trace. -/
def eval_step (env : Env) (t : Trainer) (s : TState) :
    List (String × ℚ) × List Ev :=
  let p := emaOrLive s
  let batches := (List.range t.n_eval_iterations).map
    (fun i => (env.genSample p i).map (fun img => img.take 3))
  let x_fake := clampB batches.flatten
  let ms := env.calculate_activation_statistics x_fake
  let fid_score := env.calculate_frechet_distance ms (t.fid_m, t.fid_s) (1 / 10000)
  ([("fid_score", fid_score)],
   [Ev.evalMode (if s.emaParams.isSome then Module.ema else Module.gen)] ++
   List.replicate t.n_eval_iterations (Ev.genSampleFwd p true) ++
   [Ev.stats x_fake, Ev.fid (1 / 10000)])

/-- Round half to even (Python's `round` tie-breaking). -/
def roundHalfEven (q : ℚ) : ℤ :=
  let f := ⌊q⌋
  let r := q - f
  if r < 1 / 2 then f
  else if 1 / 2 < r then f + 1
  else if f % 2 = 0 then f else f + 1

/-- Python `round(x, n)`: round half to even at `n` decimal places. -/
def roundTo (n : ℕ) (q : ℚ) : ℚ := (roundHalfEven (q * 10 ^ n) : ℚ) / 10 ^ n

/-- `round(x, 3)` as used by `record_uvs`. -/
def round3 (q : ℚ) : ℚ := roundTo 3 q

/-- `round(x, 2)` as used by `visualize` for the validation file name. -/
def round2 (q : ℚ) : ℚ := roundTo 2 q

/-- The pairing loop of `record_uvs`: for each index below
`len(line) // 2`, the tuple of elements `2*idx` and `2*idx + 1`. -/
def pairUp (l : List ℚ) : List (ℚ × ℚ) :=
  (List.range (l.length / 2)).map (fun i => (l.getD (2 * i) 0, l.getD (2 * i + 1) 0))

/-- `name_dict = 0: pred, 1: swap, 2: rand`; indexing any other key
raises in Python, modelled by `none`. -/
def name_dict : ℕ → Option String
  | 0 => some ("pred")
  | 1 => some ("swap")
  | 2 => some ("rand")
  | _ => none

/-- The labeled lines written by the loop of `record_uvs`, starting from
label index `i`; `none` when some index misses `name_dict` (a Python
`KeyError`). -/
def uvLinesAux (it : ℕ) : ℕ → List (List ℚ) → Option (List UVLine)
  | _, [] => some []
  | i, v :: rest =>
    match name_dict i, uvLinesAux it (i + 1) rest with
    | some nm, some ls =>
      some (UVLine.entry it nm (pairUp (v.map round3)) :: ls)
    | _, _ => none

/-- All lines appended by one `record_uvs` call: one labeled line per UV
array, then the blank separator written by the final `f.write` of a
newline. -/
def record_uvs_lines (uv : List (List ℚ)) (it : ℕ) : Option (List UVLine) :=
  (uvLinesAux it 0 uv).map (fun ls => ls ++ [UVLine.blank])

/-- `Trainer.record_uvs` at the file level: `uv.txt` is created when
absent (`old = none`) and appended otherwise, so the new content is the
old content (empty when absent) followed by the new lines. -/
def record_uvs (old : Option (List UVLine)) (uv : List (List ℚ)) (it : ℕ) :
    Option (List UVLine) :=
  (record_uvs_lines uv it).map (fun ls => old.getD [] ++ ls)

/-- `'visualization_%010d.png' % it`: the iteration in decimal, left
padded with zeros to 10 digits. -/
def pad10 (it : ℕ) : String :=
  let s := toString it
  String.mk (List.replicate (10 - s.length) '0') ++ s

/-- Render a `FileName` to the string used on disk.  Validation names
interpolate the rounded PSNR/SSIM values (shown here in exact rational
form, where Python prints their float form). -/
def FileName.render : FileName → String
  | FileName.trainVis it => "visualization_" ++ pad10 it ++ ".png"
  | FileName.valVis it p s =>
    "visualization_" ++ toString it ++ "_evaluation_P" ++ toString p ++
      "_S" ++ toString s ++ ".png"

/-- The batch-averaged PSNR of `visualize`'s validation branch: the
per-sample metric summed over batch indices, divided by the batch
size. -/
def psnrAvg (env : Env) (x_real image_fake : Batch) : ℚ :=
  ((List.range x_real.length).map
    (fun i => env.psnr (x_real.getD i []) (image_fake.getD i []))).sum /
    x_real.length

/-- The batch-averaged SSIM of `visualize`'s validation branch. -/
def ssimAvg (env : Env) (x_real image_fake : Batch) : ℚ :=
  ((List.range x_real.length).map
    (fun i => env.ssim (x_real.getD i []) (image_fake.getD i []))).sum /
    x_real.length

/-- The grid assembled by `visualize`: `make_grid` on the concatenation
of the real batch and the three clamped generated batches, with
`nrow = image_fake.shape[0]`. -/
def visGrid (env : Env) (x_real image_fake image_swap image_rand : Batch) : Image :=
  env.make_grid
    (x_real ++ clampB image_fake ++ clampB image_swap ++ clampB image_rand)
    image_fake.length

/-- `Trainer.visualize`.  The source first selects the EMA-or-live
generator and puts it in eval mode, but the sampling call itself is
`self.generator(x_real, mode='val', need_uv=True)` — the live generator.
In validation mode it averages PSNR/SSIM over the batch; when the
`val_idx` flag is not `True` it returns `(None, psnr, ssim)` before any
grid is built or file written; otherwise it saves the grid (named from
the iteration and the metrics rounded to 2 decimals) and appends the UV
records to the validation directory.  Outside validation mode it saves
the grid under `visualization_%010d.png` in the training visualization
directory, appends UV records there, and returns `(grid, None, None)`. -/
def visualize (env : Env) (t : Trainer) (s : TState) (data : Data) (it : ℕ)
    (mode : Option String) (val_idx : Option Bool) :
    (Option Image × Option ℚ × Option ℚ) × List Ev :=
  let sel := if s.emaParams.isSome then Module.ema else Module.gen
  let x_real := data.image
  let gv := env.genVal s.genParams x_real
  let image_fake := gv.1.pred
  let image_swap := gv.1.swap
  let image_rand := gv.1.rand
  let uvs := [gv.2.1, gv.2.2.1, gv.2.2.2]
  let baseEv := [Ev.evalMode sel, Ev.genValFwd s.genParams true]
  if mode = some ("val") then
    let psnr := psnrAvg env x_real image_fake
    let ssim := ssimAvg env x_real image_fake
    if val_idx = some true then
      let name := FileName.valVis it (round2 psnr) (round2 ssim)
      let grid := visGrid env x_real image_fake image_swap image_rand
      ((some grid, some psnr, some ssim),
       baseEv ++ [Ev.save t.val_vis_dir name,
                  Ev.uvAppend t.val_vis_dir (record_uvs_lines uvs it)])
    else
      ((none, some psnr, some ssim), baseEv)
  else
    let name := FileName.trainVis it
    let grid := visGrid env x_real image_fake image_swap image_rand
    ((some grid, none, none),
     baseEv ++ [Ev.save t.vis_dir name,
                Ev.uvAppend t.vis_dir (record_uvs_lines uvs it)])

/-- `train_step_generator` with the unused line
`d_fake = self.discriminator(x_fake)` removed: the refinement candidate
for the dead-computation claim. -/
def train_step_generator_noDFake (env : Env) (t : Trainer) (s : TState)
    (data : Data) (_it : Option ℕ) : (ℚ × ℚ × ℚ) × TState × List Ev :=
  let x_real := data.image
  let o := env.gen s.genParams x_real
  let x_fake := o.pred
  let x_rand := o.rand
  let d_rand := env.disc s.discParams x_rand
  let gloss_rand := env.compute_bce d_rand 1
  let loss_recon := mseLoss x_fake x_real * t.recon_weight
  let gen_loss := gloss_rand + loss_recon
  let genParams1 := env.stepG s.genParams gen_loss
  let ema1 := s.emaParams.map (fun p => update_average p genParams1 (999 / 1000))
  ((gen_loss, loss_recon, gloss_rand),
   { s with genParams := genParams1, emaParams := ema1 },
   [Ev.toggle Module.gen true, Ev.toggle Module.disc false,
    Ev.trainMode Module.gen, Ev.trainMode Module.disc,
    Ev.zeroGrad Module.gen,
    Ev.genFwd s.genParams false,
    Ev.discFwd x_rand,
    Ev.backward gen_loss, Ev.optStep Module.gen] ++
   (match s.emaParams with
    | some _ => [Ev.emaUpd (999 / 1000)]
    | none => []))

/-- C1: `train_step` runs the generator update first (the discriminator
update starts from the generator update's post-state, and the combined
trace is the generator trace followed by the discriminator trace), both
on the same batch `data`, and returns exactly the seven metrics
`generator_total` (total generator loss), `generator_random`
(random-branch adversarial loss), `recon` (reconstruction loss),
`discriminator` (total discriminator loss), `regularizer` (gradient
penalty), `real_d` (real-sample loss) and `rand_d` (fake-sample loss),
each equal to the corresponding scalar of the two sub-steps. -/
theorem C1_train_step_order_and_metrics (env : Env) (t : Trainer) (s : TState)
    (data : Data) (it : Option ℕ) :
    (train_step env t s data it).1 =
      [("generator_total", (train_step_generator env t s data it).1.1),
       ("generator_random", (train_step_generator env t s data it).1.2.2),
       ("recon", (train_step_generator env t s data it).1.2.1),
       ("discriminator",
        (train_step_discriminator env t
          (train_step_generator env t s data it).2.1 data it).1.1),
       ("regularizer",
        (train_step_discriminator env t
          (train_step_generator env t s data it).2.1 data it).1.2.1),
       ("real_d",
        (train_step_discriminator env t
          (train_step_generator env t s data it).2.1 data it).1.2.2.1),
       ("rand_d",
        (train_step_discriminator env t
          (train_step_generator env t s data it).2.1 data it).1.2.2.2)] ∧
    (train_step env t s data it).1.length = 7 ∧
    (train_step env t s data it).2.1 =
      (train_step_discriminator env t
        (train_step_generator env t s data it).2.1 data it).2.1 ∧
    (train_step env t s data it).2.2 =
      (train_step_generator env t s data it).2.2 ++
        (train_step_discriminator env t
          (train_step_generator env t s data it).2.1 data it).2.2 :=
  ⟨rfl, rfl, rfl, rfl⟩

/-- C2: the generator step's total loss is the adversarial loss of the
discriminator's score of the random sample against label 1, plus the
mean-squared-error between the reconstruction and the real batch scaled
by `recon_weight`; that total is what is backpropagated and handed to
the generator optimizer step, and the step returns the triple
`(total, reconstruction, random-branch adversarial)`. -/
theorem C2_generator_loss (env : Env) (t : Trainer) (s : TState) (data : Data)
    (it : Option ℕ) :
    (train_step_generator env t s data it).1 =
      (env.compute_bce
          (env.disc s.discParams (env.gen s.genParams data.image).rand) 1 +
        mseLoss (env.gen s.genParams data.image).pred data.image *
          t.recon_weight,
       mseLoss (env.gen s.genParams data.image).pred data.image *
         t.recon_weight,
       env.compute_bce
         (env.disc s.discParams (env.gen s.genParams data.image).rand) 1) ∧
    Ev.backward
        (env.compute_bce
            (env.disc s.discParams (env.gen s.genParams data.image).rand) 1 +
          mseLoss (env.gen s.genParams data.image).pred data.image *
            t.recon_weight) ∈
      (train_step_generator env t s data it).2.2 ∧
    (train_step_generator env t s data it).2.1.genParams =
      env.stepG s.genParams
        (env.compute_bce
            (env.disc s.discParams (env.gen s.genParams data.image).rand) 1 +
          mseLoss (env.gen s.genParams data.image).pred data.image *
            t.recon_weight) := by
  refine ⟨rfl, ?_, rfl⟩
  simp [train_step_generator]

/-- C3: the discriminator step backpropagates
`real loss + penalty + fake loss` (that sum is also what the
discriminator optimizer step receives), where the penalty is 10 times
the mean of the per-sample squared gradient norms of the real-sample
scores with respect to the real input, and it returns the quadruple
`(real + fake, penalty, real, fake)`, the first entry excluding the
penalty. -/
theorem C3_discriminator_loss (env : Env) (t : Trainer) (s : TState) (data : Data)
    (it : Option ℕ) :
    (train_step_discriminator env t s data it).1 =
      (env.compute_bce (env.disc s.discParams data.image) 1 +
         env.compute_bce
           (env.disc s.discParams (env.gen s.genParams data.image).rand) 0,
       10 * meanQ
         (env.compute_grad2 (env.disc s.discParams data.image) data.image),
       env.compute_bce (env.disc s.discParams data.image) 1,
       env.compute_bce
         (env.disc s.discParams (env.gen s.genParams data.image).rand) 0) ∧
    Ev.backward
        (env.compute_bce (env.disc s.discParams data.image) 1 +
          10 * meanQ
            (env.compute_grad2 (env.disc s.discParams data.image) data.image) +
          env.compute_bce
            (env.disc s.discParams (env.gen s.genParams data.image).rand) 0) ∈
      (train_step_discriminator env t s data it).2.2 ∧
    (train_step_discriminator env t s data it).2.1.discParams =
      env.stepD s.discParams
        (env.compute_bce (env.disc s.discParams data.image) 1 +
          10 * meanQ
            (env.compute_grad2 (env.disc s.discParams data.image) data.image) +
          env.compute_bce
            (env.disc s.discParams (env.gen s.genParams data.image).rand) 0) := by
  refine ⟨rfl, ?_, rfl⟩
  simp [train_step_discriminator]

/-- C10: the discriminator's score of the reconstruction (`d_fake`)
contributes to no loss term: removing that call leaves the returned
metrics and the post-state (parameters, EMA) of the generator step
unchanged. -/
theorem C10_d_fake_is_dead (env : Env) (t : Trainer) (s : TState) (data : Data)
    (it : Option ℕ) :
    (train_step_generator env t s data it).1 =
      (train_step_generator_noDFake env t s data it).1 ∧
    (train_step_generator env t s data it).2.1 =
      (train_step_generator_noDFake env t s data it).2.1 :=
  ⟨rfl, rfl⟩

/-- C4: after a generator step, the EMA parameters are
`0.999 * old EMA + 0.001 * new live parameter`, elementwise against the
just-stepped live generator parameters, when an EMA generator exists;
when `emaParams` is `none` the `Option.map` leaves it `none` — no EMA
update occurs. -/
theorem C4_ema_update (env : Env) (t : Trainer) (s : TState) (data : Data)
    (it : Option ℕ) :
    (train_step_generator env t s data it).2.1.emaParams =
      s.emaParams.map (fun p =>
        List.zipWith (fun e l => 999 / 1000 * e + 1 / 1000 * l) p
          (train_step_generator env t s data it).2.1.genParams) := by
  cases hs : s.emaParams with
  | none => simp [train_step_generator, hs]
  | some p => norm_num [train_step_generator, hs, update_average]

/-- Every `genFwd` event in the trace carries the no-gradient flag. -/
def genFwdAllNoGrad (evs : List Ev) : Bool :=
  evs.all (fun e =>
    match e with
    | Ev.genFwd _ b => b
    | _ => true)

/-- C5: the generator step leaves the discriminator parameters unchanged;
the discriminator step leaves the generator (and EMA) parameters
unchanged, and its only generator forward — the random sample it scores —
is performed under `torch.no_grad()`, so no gradient reaches generator
parameters. -/
theorem C5_frame_conditions (env : Env) (t : Trainer) (s : TState) (data : Data)
    (it : Option ℕ) :
    (train_step_generator env t s data it).2.1.discParams = s.discParams ∧
    (train_step_discriminator env t s data it).2.1.genParams = s.genParams ∧
    (train_step_discriminator env t s data it).2.1.emaParams = s.emaParams ∧
    genFwdAllNoGrad (train_step_discriminator env t s data it).2.2 = true :=
  ⟨rfl, rfl, rfl, rfl⟩

/-- Recognizes unconditional generator sampling events. -/
def isGenSampleFwd (e : Ev) : Bool :=
  match e with
  | Ev.genSampleFwd _ _ => true
  | _ => false

/-- Every unconditional sampling event carries the no-gradient flag. -/
def genSampleAllNoGrad (evs : List Ev) : Bool :=
  evs.all (fun e =>
    match e with
    | Ev.genSampleFwd _ b => b
    | _ => true)

/-- A single value lies in the unit interval. -/
def unitQ (q : ℚ) : Bool := decide (0 ≤ q) && decide (q ≤ 1)

/-- All values of a batch lie in the unit interval. -/
def allUnit (b : Batch) : Bool :=
  b.all (fun img => img.all (fun ch => ch.all unitQ))

theorem clampQ_nonneg (q : ℚ) : 0 ≤ clampQ q := le_max_left _ _

theorem clampQ_le_one (q : ℚ) : clampQ q ≤ 1 :=
  max_le (by norm_num) (min_le_left _ _)

theorem allUnit_clampB (b : Batch) : allUnit (clampB b) = true := by
  simp [allUnit, clampB, clampI, unitQ, List.all_map, Function.comp,
    clampQ_nonneg, clampQ_le_one]

theorem countP_replicate_genSample (p : Param) (n : ℕ) :
    (List.replicate n (Ev.genSampleFwd p true)).countP isGenSampleFwd = n := by
  induction n with
  | zero => rfl
  | succ m ih => simp [List.replicate_succ, List.countP_cons, isGenSampleFwd, ih]

theorem all_replicate_genSample (p : Param) (n : ℕ) :
    genSampleAllNoGrad (List.replicate n (Ev.genSampleFwd p true)) = true := by
  induction n with
  | zero => rfl
  | succ m ih =>
    simp only [genSampleAllNoGrad, List.replicate_succ, List.all_cons] at ih ⊢
    simp [ih]

theorem all_replicate_true {α : Type} (f : α → Bool) (x : α) (n : ℕ)
    (hx : f x = true) : (List.replicate n x).all f = true := by
  induction n with
  | zero => rfl
  | succ m ih => simp [List.replicate_succ, hx, ih]

/-- C7: `eval_step` with `n_eval_iterations = k` produces the single-entry
mapping `fid_score ↦` the Fréchet distance (with stabilizer `1e-4`)
between the statistics of the clamped concatenation of the `k`
channel-truncated sample batches and the reference statistics; its trace
holds exactly `k` sampling events, all under no-gradient tracking, and
every value of the batch handed to the statistics lies in `[0, 1]`. -/
theorem C7_eval_step (env : Env) (t : Trainer) (s : TState) :
    (eval_step env t s).1 =
      [("fid_score",
        env.calculate_frechet_distance
          (env.calculate_activation_statistics
            (clampB ((List.range t.n_eval_iterations).map
              (fun i =>
                (env.genSample (emaOrLive s) i).map
                  (fun img => img.take 3))).flatten))
          (t.fid_m, t.fid_s) (1 / 10000))] ∧
    (eval_step env t s).2.countP isGenSampleFwd = t.n_eval_iterations ∧
    genSampleAllNoGrad (eval_step env t s).2 = true ∧
    allUnit
        (clampB ((List.range t.n_eval_iterations).map
          (fun i =>
            (env.genSample (emaOrLive s) i).map
              (fun img => img.take 3))).flatten) = true := by
  refine ⟨rfl, ?_, ?_, allUnit_clampB _⟩
  · simp [eval_step, List.countP_append, List.countP_cons,
      countP_replicate_genSample, isGenSampleFwd]
  · have h := all_replicate_genSample (emaOrLive s) t.n_eval_iterations
    simp only [genSampleAllNoGrad] at h ⊢
    simp [eval_step, List.all_append, h]

/-- C9: on three UV arrays, `record_uvs` appends exactly four lines to
the (possibly absent) `uv.txt` content: one line per array labeled
`pred`, `swap`, `rand` by position, each pairing the consecutive
flattened values rounded to 3 decimal places into `(u, v)` tuples, and
one final blank separator line. -/
theorem C9_record_uvs (a b c : List ℚ) (old : Option (List UVLine)) (it : ℕ) :
    record_uvs old [a, b, c] it =
      some (old.getD [] ++
        [UVLine.entry it ("pred") (pairUp (a.map round3)),
         UVLine.entry it ("swap") (pairUp (b.map round3)),
         UVLine.entry it ("rand") (pairUp (c.map round3)),
         UVLine.blank]) ∧
    ((record_uvs old [a, b, c] it).getD []).length =
      (old.getD []).length + 4 := by
  have h : record_uvs old [a, b, c] it =
      some (old.getD [] ++
        [UVLine.entry it ("pred") (pairUp (a.map round3)),
         UVLine.entry it ("swap") (pairUp (b.map round3)),
         UVLine.entry it ("rand") (pairUp (c.map round3)),
         UVLine.blank]) := rfl
  refine ⟨h, ?_⟩
  rw [h]
  simp

/-- The module put into eval mode by `visualize` and `eval_step`:
the EMA generator when present, the live one otherwise. -/
def evalSel (s : TState) : Module :=
  if s.emaParams.isSome then Module.ema else Module.gen

/-- The reconstruction batch of the visualization forward pass. -/
def val_image_fake (env : Env) (s : TState) (x : Batch) : Batch :=
  (env.genVal s.genParams x).1.pred

/-- The swap batch of the visualization forward pass. -/
def val_image_swap (env : Env) (s : TState) (x : Batch) : Batch :=
  (env.genVal s.genParams x).1.swap

/-- The random batch of the visualization forward pass. -/
def val_image_rand (env : Env) (s : TState) (x : Batch) : Batch :=
  (env.genVal s.genParams x).1.rand

/-- The three UV arrays of the visualization forward pass, in the order
pred, swap, rand. -/
def val_uvs (env : Env) (s : TState) (x : Batch) : List (List ℚ) :=
  [(env.genVal s.genParams x).2.1,
   (env.genVal s.genParams x).2.2.1,
   (env.genVal s.genParams x).2.2.2]

/-- C8: `visualize` outside validation mode returns a present grid and
`(·, none, none)` and saves `visualization_%010d.png` (the iteration
zero-padded to 10 digits) in the training visualization directory; in
validation mode with the save flag not `True` it returns
`(none, psnr, ssim)` and performs no file write at all; in validation
mode with the save flag `True` it returns the grid with the
batch-averaged PSNR and SSIM and saves under the name encoding the
iteration and the metrics rounded to 2 decimals. -/
theorem C8_visualize (env : Env) (t : Trainer) (s : TState) (data : Data)
    (it : ℕ) (mode : Option String) (vi : Option Bool) :
    (mode ≠ some ("val") →
      visualize env t s data it mode vi =
        ((some (visGrid env data.image (val_image_fake env s data.image)
            (val_image_swap env s data.image) (val_image_rand env s data.image)),
          none, none),
         [Ev.evalMode (evalSel s), Ev.genValFwd s.genParams true,
          Ev.save t.vis_dir (FileName.trainVis it),
          Ev.uvAppend t.vis_dir
            (record_uvs_lines (val_uvs env s data.image) it)]) ∧
      (FileName.trainVis it).render =
        "visualization_" ++ pad10 it ++ ".png") ∧
    (mode = some ("val") → vi ≠ some true →
      visualize env t s data it mode vi =
        ((none, some (psnrAvg env data.image (val_image_fake env s data.image)),
          some (ssimAvg env data.image (val_image_fake env s data.image))),
         [Ev.evalMode (evalSel s), Ev.genValFwd s.genParams true])) ∧
    (mode = some ("val") → vi = some true →
      visualize env t s data it mode vi =
        ((some (visGrid env data.image (val_image_fake env s data.image)
            (val_image_swap env s data.image) (val_image_rand env s data.image)),
          some (psnrAvg env data.image (val_image_fake env s data.image)),
          some (ssimAvg env data.image (val_image_fake env s data.image))),
         [Ev.evalMode (evalSel s), Ev.genValFwd s.genParams true,
          Ev.save t.val_vis_dir
            (FileName.valVis it
              (round2 (psnrAvg env data.image (val_image_fake env s data.image)))
              (round2 (ssimAvg env data.image (val_image_fake env s data.image)))),
          Ev.uvAppend t.val_vis_dir
            (record_uvs_lines (val_uvs env s data.image) it)])) := by
  refine ⟨fun hm => ⟨?_, rfl⟩, fun hm hv => ?_, fun hm hv => ?_⟩
  · simp [visualize, hm, evalSel, val_image_fake, val_image_swap,
      val_image_rand, val_uvs]
  · subst hm
    simp [visualize, hv, evalSel, val_image_fake]
  · subst hm
    subst hv
    simp [visualize, evalSel, val_image_fake, val_image_swap,
      val_image_rand, val_uvs]

/-- A concrete environment with trivial collaborators, for instantiating
the theorems on explicit inputs. -/
def env0 : Env where
  gen := fun _ _ => ⟨[], [], []⟩
  genVal := fun _ _ => (⟨[], [], []⟩, ([], [], []))
  genSample := fun _ _ => []
  disc := fun _ _ => []
  compute_bce := fun _ _ => 0
  compute_grad2 := fun _ _ => []
  stepG := fun p _ => p
  stepD := fun p _ => p
  calculate_activation_statistics := fun _ => ([], [])
  calculate_frechet_distance := fun _ _ _ => 0
  psnr := fun _ _ => 0
  ssim := fun _ _ => 0
  make_grid := fun _ _ => []

/-- A concrete configuration. -/
def t0 : Trainer where
  recon_weight := 1
  n_eval_iterations := 1
  fid_m := []
  fid_s := []
  vis_dir := "vis"
  val_vis_dir := "val_vis"

/-- A concrete state whose live generator parameters differ from its EMA
parameters. -/
def s0 : TState where
  genParams := [0]
  discParams := []
  emaParams := some [1]

/-- A concrete (empty) batch. -/
def d0 : Data where
  image := []

/-- Witness for C8 at the concrete inputs: iteration 5 in each of the
three modes, with the rendered training file name checked against the
spec's example string. -/
theorem C8_visualize_witness :
    (visualize env0 t0 s0 d0 5 none none).1.1.isSome = true ∧
    (visualize env0 t0 s0 d0 5 none none).1.2.1 = none ∧
    (visualize env0 t0 s0 d0 5 none none).1.2.2 = none ∧
    (visualize env0 t0 s0 d0 5 (some ("val")) (some false)).1.1 = none ∧
    (visualize env0 t0 s0 d0 5 (some ("val")) (some true)).1.1.isSome = true ∧
    FileName.render (FileName.trainVis 5) = "visualization_0000000005.png" := by
  have hA := (C8_visualize env0 t0 s0 d0 5 none none).1 (by decide)
  have hB := (C8_visualize env0 t0 s0 d0 5 (some ("val")) (some false)).2.1 rfl
    (by decide)
  have hC := (C8_visualize env0 t0 s0 d0 5 (some ("val")) (some true)).2.2 rfl rfl
  exact ⟨by rw [hA.1]; rfl, by rw [hA.1], by rw [hA.1], by rw [hB],
    by rw [hC]; rfl, by decide⟩

/-- C6 as the claim states it: whenever an EMA generator is present,
every sampling forward of `eval_step` and every visualization forward of
`visualize` uses the EMA parameters. -/
def C6_claim_prop : Prop :=
  ∀ (env : Env) (t : Trainer) (s : TState) (data : Data) (it : ℕ)
    (mode : Option String) (vi : Option Bool) (p : Param),
    s.emaParams = some p →
    ((eval_step env t s).2.all (fun e =>
      match e with
      | Ev.genSampleFwd q _ => decide (q = p)
      | _ => true) = true) ∧
    ((visualize env t s data it mode vi).2.all (fun e =>
      match e with
      | Ev.genValFwd q _ => decide (q = p)
      | _ => true) = true)

/-- C6 is false on the code: with live parameters `[0]` and EMA
parameters `[1]`, the visualization forward pass of `visualize` uses the
live parameters `[0]`, not the EMA parameters — the source selects
`generator_test` and puts it in eval mode but then samples with
`self.generator`. -/
theorem C6_counterexample : ¬ C6_claim_prop := by
  intro h
  have h2 := (h env0 t0 s0 d0 0 none none [1] rfl).2
  revert h2
  decide

/-- C6 amended: `eval_step` samples with the EMA generator when present
and with the live generator only when the EMA generator is absent
(`emaOrLive`), but `visualize` always runs its forward pass with the
live generator parameters, even when an EMA generator exists. -/
theorem C6_amended_generator_selection (env : Env) (t : Trainer) (s : TState)
    (data : Data) (it : ℕ) (mode : Option String) (vi : Option Bool)
    (q : Param) :
    ((eval_step env t s).2.all (fun e =>
      match e with
      | Ev.genSampleFwd r _ => decide (r = emaOrLive s)
      | _ => true) = true) ∧
    ((visualize env t s data it mode vi).2.all (fun e =>
      match e with
      | Ev.genValFwd r _ => decide (r = s.genParams)
      | _ => true) = true) ∧
    emaOrLive { s with emaParams := some q } = q ∧
    emaOrLive { s with emaParams := none } = s.genParams := by
  refine ⟨?_, ?_, rfl, rfl⟩
  · have h := all_replicate_true
      (fun e =>
        match e with
        | Ev.genSampleFwd r _ => decide (r = emaOrLive s)
        | _ => true)
      (Ev.genSampleFwd (emaOrLive s) true) t.n_eval_iterations (by simp)
    simp [eval_step, List.all_append, h]
  · by_cases hm : mode = some ("val")
    · subst hm
      by_cases hv : vi = some true
      · subst hv
        simp [visualize]
      · simp [visualize, hv]
    · simp [visualize, hm]

end SwapNeRF
